import Mathlib

set_option autoImplicit false

namespace MlflowTracing

/-!
Shallow embedding of the MLflow in-process tracing core
(`mlflow/tracing/...`), developed to check the natural-language
specification of the subsystem against the code.

Python dictionaries are modelled as insertion-ordered association
lists with unique keys; JSON encoding of attribute values is modelled
by an injective encoding on an abstract `Value` type.
-/

/-- Lookup in a python-style dict (first matching key). -/
def dictGet {K V : Type} [DecidableEq K] : List (K × V) → K → Option V
  | [], _ => none
  | (k', v) :: rest, k => if k' = k then some v else dictGet rest k

/-- Assignment `d[k] = v` in a python-style dict: replaces the value in
place when the key is present, appends at the end otherwise (python
dicts preserve insertion order). -/
def dictSet {K V : Type} [DecidableEq K] : List (K × V) → K → V → List (K × V)
  | [], k, v => [(k, v)]
  | (k', v') :: rest, k, v =>
    if k' = k then (k', v) :: rest else (k', v') :: dictSet rest k v

/-- Removal `d.pop(k, None)`: removes the key (python dict keys are
unique, so removing every occurrence in the association list is the
faithful model). -/
def dictPop {K V : Type} [DecidableEq K] : List (K × V) → K → List (K × V)
  | [], _ => []
  | (k', v') :: rest, k =>
    if k' = k then dictPop rest k else (k', v') :: dictPop rest k

/-- Python `{**base, **override}` / `base.update(override)`: applies the
entries of `override` over `base` in order. -/
def dictUpdate {K V : Type} [DecidableEq K] (base override : List (K × V)) :
    List (K × V) :=
  override.foldl (fun acc p => dictSet acc p.1 p.2) base

/-- The first option when present, the second otherwise (the lookup
discipline of a dict built by updating `base` with `override`). -/
def orElseGet {V : Type} (override base : Option V) : Option V :=
  match override with
  | some v => some v
  | none => base

/-- Abstract JSON-serializable values (span inputs, outputs, attribute
values). -/
inductive Value where
  | null
  | int (n : Int)
  | str (s : String)
  | list (xs : List Value)

mutual

/-- JSON serialization of a `Value` (`json.dumps` with `TraceJSONEncoder`),
modelled as an injective printing function. -/
def encodeValue : Value → String
  | Value.null => "null"
  | Value.int n => toString n
  | Value.str s => "[str]" ++ s
  | Value.list xs => "[" ++ encodeValueList xs ++ "]"

/-- JSON serialization of a list of values, comma separated. -/
def encodeValueList : List Value → String
  | [] => ""
  | [x] => encodeValue x
  | x :: rest => encodeValue x ++ "," ++ encodeValueList rest

end

/-- Span status codes of the underlying tracing protocol
(`opentelemetry StatusCode` as surfaced through `SpanStatus`): a span is
`UNSET` until a status is set. -/
inductive StatusCode where
  | UNSET
  | OK
  | ERROR
deriving DecidableEq, Repr

/-- Trace-level statuses (entity `TraceStatus`; the entity module is not
part of the sources, the constructors follow the spec: OK | ERROR |
IN_PROGRESS plus an unspecified default). -/
inductive TraceStatusCode where
  | UNSPECIFIED
  | OK
  | ERROR
  | IN_PROGRESS
deriving DecidableEq, Repr

/-- Terminal trace statuses (`TraceStatus.end_statuses()`). -/
def end_statuses : List TraceStatusCode := [TraceStatusCode.OK, TraceStatusCode.ERROR]

/-- Exceptions raised by the tracing layer (`MlflowException` with its
error codes, plus python-level key errors). -/
inductive MlflowErr where
  | exception (msg : String)
  | invalidParameter (msg : String)
  | resourceDoesNotExist (msg : String)
  | keyError (msg : String)
deriving DecidableEq, Repr

/-- An event attached to a span (`SpanEvent`): name, optional timestamp
and string-valued attributes (OpenTelemetry events only accept
primitive attribute values). -/
structure SpanEventRec where
  name : String
  timestamp : Option Nat := none
  attributes : List (String × String) := []
deriving Repr

/-- Span attribute keys (`SpanAttributeKey` constants; the constants
module is not part of the sources, values follow the known mlflow
constants and only need to be distinct). -/
def KEY_REQUEST_ID : String := "mlflow.traceRequestId"

def KEY_INPUTS : String := "mlflow.spanInputs"

def KEY_OUTPUTS : String := "mlflow.spanOutputs"

def KEY_SPAN_TYPE : String := "mlflow.spanType"

def KEY_FUNCTION_NAME : String := "mlflow.spanFunctionName"

/-- Data carried by an OpenTelemetry span; shared by the live `OTelSpan`
and the immutable `OTelReadableSpan` representations (the live SDK span
is a subclass of the readable one). Attribute values are stored
JSON-encoded in the real span; encoding and decoding are modelled as
the identity on `Value`, so attributes hold `Value` directly. -/
structure OtelSpanData where
  name : String
  trace_id : Nat
  span_id : Nat
  parent_span_id : Option Nat := none
  start_time : Option Nat := none
  end_time : Option Nat := none
  status : StatusCode := StatusCode.UNSET
  attributes : List (String × Value) := []
  events : List SpanEventRec := []
  ended : Bool := false

/-- Whether the wrapper holds a live `OTelSpan` (mutable, returned by the
tracer) or an immutable `OTelReadableSpan` (reconstructed from
storage). -/
inductive OtelSpanKind where
  | live
  | readable
deriving DecidableEq, Repr

/-- The MLflow span wrapper (`mlflow/tracing/types/wrapper.py`, class
`Span`): wraps an OpenTelemetry span and exposes domain getters and
setters. -/
structure Span where
  kind : OtelSpanKind
  otel : OtelSpanData

/-- The exception `active_span_only` raises for a method called on a
span that does not wrap a live `OTelSpan`. -/
def nonActiveSpanError (funcName : String) : MlflowErr :=
  MlflowErr.exception
    ("Calling " ++ funcName ++ "() is not allowed on non-active spans.")

/-- Guard decorator `active_span_only`: the wrapped method runs only when
the underlying span is a live `OTelSpan`; on a readable span it raises
an `MlflowException`. -/
def activeSpanOnly {α : Type} (funcName : String) (sp : Span)
    (body : Except MlflowErr α) : Except MlflowErr α :=
  if sp.kind = OtelSpanKind.live then body
  else Except.error (nonActiveSpanError funcName)

/-- Setter `Span.set_attribute`: JSON-encodes the value into the
underlying span attributes (encoding modelled as identity). -/
def Span.set_attribute (sp : Span) (key : String) (value : Value) :
    Except MlflowErr Span :=
  activeSpanOnly "set_attribute" sp
    (Except.ok { sp with otel := { sp.otel with
      attributes := dictSet sp.otel.attributes key value } })

/-- Setter `Span.set_inputs`: stores the inputs under the dedicated
attribute key. -/
def Span.set_inputs (sp : Span) (inputs : Value) : Except MlflowErr Span :=
  activeSpanOnly "set_inputs" sp (sp.set_attribute KEY_INPUTS inputs)

/-- Setter `Span.set_outputs`: stores the outputs under the dedicated
attribute key. -/
def Span.set_outputs (sp : Span) (outputs : Value) : Except MlflowErr Span :=
  activeSpanOnly "set_outputs" sp (sp.set_attribute KEY_OUTPUTS outputs)

/-- Setter `Span.set_attributes`: additive bulk attribute update. -/
def Span.set_attributes (sp : Span) (attrs : List (String × Value)) :
    Except MlflowErr Span :=
  activeSpanOnly "set_attributes" sp
    (attrs.foldlM (fun s p => s.set_attribute p.1 p.2) sp)

/-- Setter `Span.set_status`. -/
def Span.set_status (sp : Span) (status : StatusCode) : Except MlflowErr Span :=
  activeSpanOnly "set_status" sp
    (Except.ok { sp with otel := { sp.otel with status := status } })

/-- Mutator `Span.add_event`: appends an event to the underlying span. -/
def Span.add_event (sp : Span) (event : SpanEventRec) : Except MlflowErr Span :=
  activeSpanOnly "add_event" sp
    (Except.ok { sp with otel := { sp.otel with
      events := sp.otel.events ++ [event] } })

/-- Lifecycle `Span.end`: if the status is not ERROR it is defaulted to
OK, then the underlying OpenTelemetry span is ended. -/
def Span.endSpan (sp : Span) : Except MlflowErr Span :=
  activeSpanOnly "end" sp
    (let st := if sp.otel.status ≠ StatusCode.ERROR then StatusCode.OK
               else sp.otel.status
     Except.ok { sp with otel := { sp.otel with status := st, ended := true } })

/-- Getter `Span.inputs`. -/
def Span.inputs (sp : Span) : Option Value :=
  dictGet sp.otel.attributes KEY_INPUTS

/-- Getter `Span.outputs`. -/
def Span.outputs (sp : Span) : Option Value :=
  dictGet sp.otel.attributes KEY_OUTPUTS

/-- The no-op span (`NoOpSpan`): identical mutator interface, every
mutator does nothing and never raises; accessors return None. -/
structure NoOpSpanRec where
deriving DecidableEq, Repr

def NoOpSpanRec.set_inputs (sp : NoOpSpanRec) (_ : Value) :
    Except MlflowErr NoOpSpanRec := Except.ok sp

def NoOpSpanRec.set_outputs (sp : NoOpSpanRec) (_ : Value) :
    Except MlflowErr NoOpSpanRec := Except.ok sp

def NoOpSpanRec.set_attribute (sp : NoOpSpanRec) (_ : String) (_ : Value) :
    Except MlflowErr NoOpSpanRec := Except.ok sp

def NoOpSpanRec.set_attributes (sp : NoOpSpanRec) (_ : List (String × Value)) :
    Except MlflowErr NoOpSpanRec := Except.ok sp

def NoOpSpanRec.set_status (sp : NoOpSpanRec) (_ : StatusCode) :
    Except MlflowErr NoOpSpanRec := Except.ok sp

def NoOpSpanRec.add_event (sp : NoOpSpanRec) (_ : SpanEventRec) :
    Except MlflowErr NoOpSpanRec := Except.ok sp

def NoOpSpanRec.endSpan (sp : NoOpSpanRec) : Except MlflowErr NoOpSpanRec :=
  Except.ok sp

/-! In-memory trace manager (`mlflow/tracing/trace_manager.py`). -/

/-- Formatting of an OpenTelemetry integer span id into the
externally-visible string id (`format_span_id`; the helper itself is not
part of the sources, modelled as an injective hex-style rendering). -/
def formatSpanId (n : Nat) : String :=
  "0x" ++ String.mk (Nat.toDigits 16 n)

/-- Keys of `_Trace.span_dict`: the python dict is keyed by the raw
OpenTelemetry integer span id at the lookup site of
`get_or_create_mlflow_span` and by the formatted string id at the store
site, so the key type is their sum. -/
inductive SpanKey where
  | otelId (n : Nat)
  | formatted (s : String)
deriving DecidableEq, Repr

/-- The span wrapper stored by the manager (`MlflowSpanWrapper`; the
class is not part of the sources, modelled after the source `Span`
wrapper: it holds the request id, the wrapped OpenTelemetry span and the
span type). -/
structure MlflowSpanWrapper where
  request_id : String
  span : OtelSpanData
  span_type : Option String := none

/-- Property `MlflowSpanWrapper.span_id`: the formatted span id. -/
def MlflowSpanWrapper.span_id (w : MlflowSpanWrapper) : String :=
  formatSpanId w.span.span_id

/-- Property `MlflowSpanWrapper.parent_span_id`. -/
def MlflowSpanWrapper.parent_span_id (w : MlflowSpanWrapper) : Option String :=
  w.span.parent_span_id.map formatSpanId

/-- Property `MlflowSpanWrapper.inputs`. -/
def MlflowSpanWrapper.inputs (w : MlflowSpanWrapper) : Option Value :=
  dictGet w.span.attributes KEY_INPUTS

/-- Property `MlflowSpanWrapper.outputs`. -/
def MlflowSpanWrapper.outputs (w : MlflowSpanWrapper) : Option Value :=
  dictGet w.span.attributes KEY_OUTPUTS

/-- Result of `get_or_create_mlflow_span`: either a stored live wrapper
or a `NoOpMlflowSpanWrapper`. -/
inductive WrapperResult where
  | noop
  | wrapper (w : MlflowSpanWrapper)

/-- Trace metadata as used by the trace manager (`TraceInfo` with the
request id, tags and request metadata fields the tracing core reads and
writes). -/
structure TMTraceInfo where
  request_id : String
  experiment_id : String := ""
  timestamp_ms : Nat := 0
  execution_time_ms : Option Nat := none
  status : TraceStatusCode := TraceStatusCode.IN_PROGRESS
  request_metadata : List (String × String) := []
  tags : List (String × String) := []

/-- Internal per-trace aggregate (`_Trace`): trace info plus the span
dict keyed by span id. -/
structure TMTrace where
  info : TMTraceInfo
  span_dict : List (SpanKey × MlflowSpanWrapper) := []

/-- Exportable trace data (`TraceData`): the span list plus the
trace-level request and response derived from the root span. -/
structure TraceDataRec where
  spans : List MlflowSpanWrapper := []
  request : Option Value := none
  response : Option Value := none

/-- Exportable trace (`Trace`): info plus data. -/
structure TraceRec where
  info : TMTraceInfo
  data : TraceDataRec

/-- Loop body of `_Trace.to_mlflow_trace`: appends the span to the span
list; when the span has no parent, takes `request`/`response` from its
inputs and outputs. -/
def toMlflowTraceStep (td : TraceDataRec) (p : SpanKey × MlflowSpanWrapper) :
    TraceDataRec :=
  let sp := p.2
  let td := { td with spans := td.spans ++ [sp] }
  if sp.parent_span_id = none then
    { td with request := sp.inputs, response := sp.outputs }
  else td

/-- Assembly `_Trace.to_mlflow_trace`: folds the loop body over the span
dict in insertion order. -/
def TMTrace.to_mlflow_trace (t : TMTrace) : TraceRec :=
  { info := t.info, data := t.span_dict.foldl toMlflowTraceStep {} }

/-- State of the `InMemoryTraceManager` singleton: the trace buffer keyed
by the OpenTelemetry trace id, and the secondary index from request id
to trace id. The TTL/size eviction of the buffer is not modelled (no
claim depends on the eviction policy beyond entries being absent). -/
structure TMState where
  traces : List (Nat × TMTrace) := []
  request_id_to_trace_id : List (String × Nat) := []

/-- Registration `InMemoryTraceManager.add_trace`: creates an empty
aggregate for the trace id and indexes its request id. -/
def TMState.add_trace (s : TMState) (trace_id : Nat) (info : TMTraceInfo) :
    TMState :=
  { traces := dictSet s.traces trace_id { info := info },
    request_id_to_trace_id :=
      dictSet s.request_id_to_trace_id info.request_id trace_id }

/-- Removal `InMemoryTraceManager.pop_trace`: resolves the trace id via
the secondary index, removes the aggregate when present and returns it
assembled as a `Trace`; returns none otherwise. The secondary index
entry itself is not removed by the source. -/
def TMState.pop_trace (s : TMState) (request_id : String) :
    Option TraceRec × TMState :=
  match dictGet s.request_id_to_trace_id request_id with
  | none => (none, s)
  | some trace_id =>
    match dictGet s.traces trace_id with
    | some t =>
      (some t.to_mlflow_trace, { s with traces := dictPop s.traces trace_id })
    | none => (none, s)

/-- Lookup-or-create `InMemoryTraceManager.get_or_create_mlflow_span`:
returns a no-op wrapper when the span's trace is not registered; else
returns the wrapper stored for the span id, creating and storing a new
wrapper when absent. The lookup uses the raw OpenTelemetry span id
while the store uses the formatted wrapper span id, as in the source. -/
def TMState.get_or_create_mlflow_span (s : TMState) (otel_span : OtelSpanData)
    (span_type : Option String := none) : WrapperResult × TMState :=
  match dictGet s.traces otel_span.trace_id with
  | none => (WrapperResult.noop, s)
  | some t =>
    match dictGet t.span_dict (SpanKey.otelId otel_span.span_id) with
    | some w => (WrapperResult.wrapper w, s)
    | none =>
      let w : MlflowSpanWrapper :=
        { request_id := t.info.request_id, span := otel_span,
          span_type := span_type }
      let t' := { t with
        span_dict := dictSet t.span_dict (SpanKey.formatted w.span_id) w }
      (WrapperResult.wrapper w,
       { s with traces := dictSet s.traces otel_span.trace_id t' })

/-! Fluent API (`mlflow/tracing/core/fluent.py`). -/

/-- Fault model for the tracing-internal operations of `start_span`:
whether span creation (`provider.start_span_in_context` /
`create_mlflow_span`), registration
(`InMemoryTraceManager.register_span`) or ending (`span.end()`)
raises. -/
structure TracingFaults where
  createRaises : Bool := false
  registerRaises : Bool := false
  endRaises : Bool := false
deriving DecidableEq, Repr

/-- The span visible to user code inside `start_span`: a live mlflow
span, or the `NoOpSpan` yielded when span creation failed. -/
inductive FluentSpan where
  | noop
  | live (sp : Span)

/-- Operation `set_attribute` lifted to the fluent span (live span
setters succeed, no-op span setters do nothing). -/
def FluentSpan.set_attribute (fs : FluentSpan) (key : String) (value : Value) :
    FluentSpan :=
  match fs with
  | FluentSpan.noop => FluentSpan.noop
  | FluentSpan.live sp => FluentSpan.live ((sp.set_attribute key value).toOption.getD sp)

/-- Operation `set_inputs` lifted to the fluent span. -/
def FluentSpan.set_inputs (fs : FluentSpan) (v : Value) : FluentSpan :=
  match fs with
  | FluentSpan.noop => FluentSpan.noop
  | FluentSpan.live sp => FluentSpan.live ((sp.set_inputs v).toOption.getD sp)

/-- Operation `set_outputs` lifted to the fluent span. -/
def FluentSpan.set_outputs (fs : FluentSpan) (v : Value) : FluentSpan :=
  match fs with
  | FluentSpan.noop => FluentSpan.noop
  | FluentSpan.live sp => FluentSpan.live ((sp.set_outputs v).toOption.getD sp)

/-- Operation `end` lifted to the fluent span. -/
def FluentSpan.endSpan (fs : FluentSpan) : FluentSpan :=
  match fs with
  | FluentSpan.noop => FluentSpan.noop
  | FluentSpan.live sp => FluentSpan.live ((sp.endSpan).toOption.getD sp)

/-- The fresh live span created by `start_span` on the success path. -/
def initFluentSpan (name : String) : FluentSpan :=
  FluentSpan.live { kind := OtelSpanKind.live, otel := { name := name, trace_id := 0, span_id := 0 } }

/-- Context manager `start_span` run over a body. Creation and
registration happen inside a try-block: if either raises, the exception
is caught, a `NoOpSpan` is yielded to the body and the context manager
returns the body's outcome. Otherwise the live span is yielded and the
finally-block ends it, catching any exception `end()` raises. The
body's outcome (`Except.ok` for a normal return, `Except.error` for an
exception of the user code, re-raised after the finally-block) is
returned unchanged. -/
def start_span_run {ε α : Type} (faults : TracingFaults) (name : String)
    (body : FluentSpan → Except ε α × FluentSpan) : Except ε α × FluentSpan :=
  if faults.createRaises || faults.registerRaises then
    body FluentSpan.noop
  else
    let (r, fs) := body (initFluentSpan name)
    let fs := if faults.endRaises then fs else fs.endSpan
    (r, fs)

/-- Decorator body `_wrap_function`: the wrapping coroutine enters
`start_span`, records the function name attribute and the captured
input arguments, runs the user function, records its return value as
the span outputs and returns it; a user exception is thrown back into
the coroutine so the span is still ended and the exception is
re-raised. The user function is modelled as `f : α → Except ε β`
(normal return or raised exception) and its serialized return value as
`encode`. -/
def wrap_function {α β ε : Type} (faults : TracingFaults) (fnName : String)
    (f : α → Except ε β) (encode : β → Value) (capturedInputs : Value) (x : α) :
    Except ε β × FluentSpan :=
  start_span_run faults fnName (fun span =>
    let span := span.set_attribute KEY_FUNCTION_NAME (Value.str fnName)
    let span := span.set_inputs capturedInputs
    match f x with
    | Except.ok v => (Except.ok v, span.set_outputs (encode v))
    | Except.error e => (Except.error e, span))

/-! Generator wrapping (`_wrap_generator` in
`mlflow/tracing/core/fluent.py`). -/

/-- Name of the i-th stream chunk event
(`STREAM_CHUNK_EVENT_NAME_FORMAT`; the constants module is not part of
the sources, the value follows the known mlflow constant). -/
def chunkEventName (index : Nat) : String :=
  "mlflow.chunk.item." ++ toString index

/-- Attribute key holding the serialized chunk on a chunk event
(`STREAM_CHUNK_EVENT_VALUE_KEY`). -/
def STREAM_CHUNK_EVENT_VALUE : String := "mlflow.chunk.value"

/-- The chunk event recorded for the i-th yielded chunk. -/
def chunkEvent (index : Nat) (chunk : Value) : SpanEventRec :=
  { name := chunkEventName index,
    attributes := [(STREAM_CHUNK_EVENT_VALUE, encodeValue chunk)] }

/-- Helper `_record_chunk_event`: adds the chunk event to the span; an
exception while recording is caught and logged. -/
def record_chunk_event (sp : Span) (chunk : Value) (index : Nat) : Span :=
  (sp.add_event (chunkEvent index chunk)).toOption.getD sp

/-- The chunk events recorded for a list of chunks, indexed from the
given start index. -/
def chunk_events_from : Nat → List Value → List SpanEventRec
  | _, [] => []
  | i, c :: rest => chunkEvent i c :: chunk_events_from (i + 1) rest

/-- The exception event recorded when the generator body raises
(`SpanEvent.from_exception`); the exception is modelled by its
message. -/
def exceptionEvent (msg : String) : SpanEventRec :=
  { name := "exception", attributes := [("exception.message", msg)] }

/-- Modelled from the spec: `end_client_span_or_trace` (imported from
`mlflow.tracing.utils`, not part of the sources) ends the given span
via the client, first setting the given outputs and status when
supplied; ending defaults a non-ERROR status to OK. -/
def end_client_span_or_trace (sp : Span) (outputs : Option Value := none)
    (status : Option StatusCode := none) : Span :=
  let sp := match outputs with
    | some o => (sp.set_outputs o).toOption.getD sp
    | none => sp
  let sp := match status with
    | some st => (sp.set_status st).toOption.getD sp
    | none => sp
  (sp.endSpan).toOption.getD sp

/-- Helper `_end_stream_span` on the error path: records the exception
event and ends the span with ERROR status. -/
def end_stream_span_error (sp : Span) (msg : String) : Span :=
  let sp := (sp.add_event (exceptionEvent msg)).toOption.getD sp
  end_client_span_or_trace sp none (some StatusCode.ERROR)

/-- Helper `_end_stream_span` on the success path: ends the span with
outputs equal to the accumulated chunk list, or to the reducer applied
to it when a reducer is supplied. -/
def end_stream_span_ok (reducer : Option (List Value → Value)) (sp : Span)
    (outputs : List Value) : Span :=
  let outVal : Value := match reducer with
    | some r => r outputs
    | none => Value.list outputs
  end_client_span_or_trace sp (some outVal) none

/-- Behaviour of a generator body: the chunks it yields in order,
followed by either normal exhaustion (`err = none`) or an exception
raised mid-stream after the listed chunks (`err = some msg`). -/
structure GenBehavior where
  chunks : List Value
  err : Option String := none

/-- The consuming loop of the generator wrapper: each value produced by
the generator is appended to the outputs accumulator, recorded as a
chunk event and yielded to the consumer; on exhaustion the span is
ended with the accumulated outputs (reduced when a reducer is given);
on a generator exception the span is ended with ERROR and the exception
is re-raised. Returns the values delivered to the consumer, the
propagated exception and the final span. -/
def stream_loop (reducer : Option (List Value → Value)) (err : Option String) :
    List Value → Nat → List Value → Span → List Value × Option String × Span
  | [], _, outputs, sp =>
    match err with
    | some e => ([], some e, end_stream_span_error sp e)
    | none => ([], none, end_stream_span_ok reducer sp outputs)
  | c :: rest, i, outputs, sp =>
    let outputs := outputs ++ [c]
    let sp := record_chunk_event sp c i
    let (d, r, s) := stream_loop reducer err rest (i + 1) outputs sp
    (c :: d, r, s)

/-- The fresh live stream span created by `_start_stream_span` on its
success path. -/
def initStreamSpan (name : String) : Span :=
  { kind := OtelSpanKind.live, otel := { name := name, trace_id := 0, span_id := 0 } }

/-- Wrapper produced by `_wrap_generator` for a (synchronous) generator
function, run to completion by a consumer that exhausts it: starts the
stream span, then runs the consuming loop. -/
def wrap_generator_run (reducer : Option (List Value → Value)) (name : String)
    (gen : GenBehavior) : List Value × Option String × Span :=
  stream_loop reducer gen.err gen.chunks 0 [] (initStreamSpan name)

/-! Async trace logging queue
(`mlflow/utils/async_logging/async_trace_logging_queue.py`). -/

/-- Retry ceiling `_END_TRACE_MAX_RETRY`. -/
def END_TRACE_MAX_RETRY : Nat := 5

/-- The mutable part of an `EndTraceTask`: its retry counter; the
backend-assigned request id future of its trace is modelled by the
readiness oracle passed to the handler. -/
structure EndTraceTaskRec where
  retry : Nat := 0
deriving DecidableEq, Repr

/-- Outcome of one handling of a dequeued `EndTraceTask` by the worker
(`AsyncTraceLoggingQueue._process_task`, inner `_handle`). -/
inductive EndTaskOutcome where
  | requeued (sleepSeconds : Nat)
  | dropped
  | completed
deriving DecidableEq, Repr

/-- One handling step of a dequeued `EndTraceTask`: if the request id
future is not yet resolved and the retry counter is below the ceiling,
the counter is incremented, the worker sleeps `2 ^ retry` seconds and
the task is re-enqueued; at the ceiling the task is dropped with a
logged warning; if the future is resolved the handler proceeds past the
race guard (the task completes). -/
def handleEndTraceTask (ready : Bool) (t : EndTraceTaskRec) :
    EndTaskOutcome × EndTraceTaskRec :=
  if ready then (EndTaskOutcome.completed, t)
  else if t.retry < END_TRACE_MAX_RETRY then
    let t' : EndTraceTaskRec := { t with retry := t.retry + 1 }
    (EndTaskOutcome.requeued (2 ^ t'.retry), t')
  else (EndTaskOutcome.dropped, t)

/-- Driver for the queue's treatment of one `EndTraceTask`: the task is
dequeued and handled; a re-enqueued task is dequeued and handled again
at the next attempt. `ready n` tells whether the request id future is
resolved when the task is dequeued for the n-th time. Returns the list
of backoff sleeps performed and whether the task completed (`true`) or
was dropped (`false`); `none` when the fuel is exhausted before the
task leaves the queue. -/
def processEndTask : Nat → (Nat → Bool) → Nat → EndTraceTaskRec →
    Option (List Nat × Bool)
  | 0, _, _, _ => none
  | fuel + 1, ready, attempt, t =>
    match handleEndTraceTask (ready attempt) t with
    | (EndTaskOutcome.completed, _) => some ([], true)
    | (EndTaskOutcome.dropped, _) => some ([], false)
    | (EndTaskOutcome.requeued s, t') =>
      (processEndTask fuel ready (attempt + 1) t').map
        (fun p => (s :: p.1, p.2))

/-! Span processor (`mlflow/tracing/processor/mlflow.py`,
`MlflowSpanProcessor.on_start`), synchronous-logging path. -/

/-- World state threaded through the processor: the monotone clock (in
time units), the latency of one backend `start_tracked_trace` round
trip, and the request id the backend assigns. -/
structure ProcessorWorld where
  now : Nat
  backendLatency : Nat
  backendRequestId : String

/-- Modelled from the spec: `get_request_id_from_trace_id` of the trace
manager (not part of the sources) resolves the request id registered
for an OpenTelemetry trace id, none when the trace is not registered. -/
def TMState.get_request_id_from_trace_id (s : TMState) (trace_id : Nat) :
    Option String :=
  (dictGet s.traces trace_id).map (fun t => t.info.request_id)

/-- Modelled from the spec: the backend call `start_tracked_trace`
durably registers a new trace and returns its `TraceInfo` carrying the
backend-assigned request id; the caller blocks for the round-trip
latency, which advances the clock. -/
def start_tracked_trace (w : ProcessorWorld) (experiment_id : String)
    (timestamp_ms : Nat) (request_metadata tags : List (String × String)) :
    TMTraceInfo × ProcessorWorld :=
  ({ request_id := w.backendRequestId, experiment_id := experiment_id,
     timestamp_ms := timestamp_ms, request_metadata := request_metadata,
     tags := tags },
   { w with now := w.now + w.backendLatency })

/-- Hook `MlflowSpanProcessor.on_start` with synchronous logging: when no
trace is registered for the span's trace id this is the first span, so
the trace is registered with the backend (blocking for the round trip)
and with the trace manager; in every case the request id attribute is
set on the span and the span's recorded start time is then reset to the
current time, so the backend latency is excluded from the span's
reported duration. -/
def on_start (w : ProcessorWorld) (mgr : TMState) (span : OtelSpanData) :
    OtelSpanData × ProcessorWorld × TMState :=
  match mgr.get_request_id_from_trace_id span.trace_id with
  | some request_id =>
    let span := { span with
      attributes := dictSet span.attributes KEY_REQUEST_ID (Value.str request_id),
      start_time := some w.now }
    (span, w, mgr)
  | none =>
    let (trace_info, w') := start_tracked_trace w "" ((span.start_time.getD 0) / 1000000) [] []
    let mgr' := mgr.add_trace span.trace_id trace_info
    let span := { span with
      attributes := dictSet span.attributes KEY_REQUEST_ID
        (Value.str trace_info.request_id),
      start_time := some w'.now }
    (span, w', mgr')

/-! Trace merging (`mlflow/tracing/tracking.py`, `add_trace` and
`_merge_trace`). -/

/-- An immutable span of an external trace, and the clones produced by
merging: identity, parent linkage, the internal (OpenTelemetry-style)
trace identifier and the externally visible request id. -/
structure MergeSpan where
  span_id : String
  name : String := ""
  parent_id : Option String := none
  trace_id : String
  request_id : String
deriving DecidableEq, Repr

/-- Trace-level info of an aggregate participating in a merge. -/
structure MergeTraceInfo where
  tags : List (String × String) := []
  request_metadata : List (String × String) := []
deriving DecidableEq, Repr

/-- An in-flight trace aggregate as seen by the merge path: info plus the
span dict keyed by span id. -/
structure MergeAgg where
  info : MergeTraceInfo
  span_dict : List (String × MergeSpan) := []
deriving DecidableEq, Repr

/-- Modelled from the spec: the trace manager registry as used by
`_merge_trace` (its `get_trace`/`register_span` operations are not part
of the sources); traces are reached by request id. -/
abbrev MergeManager := List (String × MergeAgg)

/-- Lookup `get_span_from_id`: span of the given trace by span id. -/
def merge_get_span_from_id (mgr : MergeManager) (request_id span_id : String) :
    Option MergeSpan :=
  (dictGet mgr request_id).bind (fun t => dictGet t.span_dict span_id)

/-- An aggregate with one span added or overwritten under its span id
(the mutation performed by `register_span` on the trace it finds). -/
def agg_with_span (t : MergeAgg) (sp : MergeSpan) : MergeAgg :=
  { t with span_dict := dictSet t.span_dict sp.span_id sp }

/-- Modelled from the spec: `register_span` adds or overwrites a span
under its trace's aggregate, keyed by span id, and fails silently when
the trace is not registered. -/
def merge_register_span (mgr : MergeManager) (sp : MergeSpan) : MergeManager :=
  match dictGet mgr sp.request_id with
  | none => mgr
  | some t => dictSet mgr sp.request_id (agg_with_span t sp)

/-- Modelled from the spec: `LiveSpan.from_immutable_span` clones an
immutable span into the receiving trace, carrying the given parent span
id, request id and internal trace identifier. -/
def from_immutable_span (sp : MergeSpan) (parent_span_id : Option String)
    (request_id trace_id : String) : MergeSpan :=
  { sp with
    parent_id := parent_span_id,
    request_id := request_id,
    trace_id := trace_id }

/-- An external trace as consumed by `add_trace`: terminal status check
data, tags, request metadata and the span list in stored order. -/
structure ExtTrace where
  status : TraceStatusCode
  tags : List (String × String) := []
  request_metadata : List (String × String) := []
  spans : List MergeSpan := []

/-- The cloning loop of `_merge_trace`: spans are cloned one by one in
stored order; each span's parent is its own parent id, defaulting to
the target span for parentless spans; a parent that cannot be found in
the receiving trace raises an invalid-parameter usage error. -/
def merge_loop (target_request_id target_parent_span_id new_trace_id : String) :
    MergeManager → List MergeSpan → Except MlflowErr MergeManager
  | mgr, [] => Except.ok mgr
  | mgr, sp :: rest =>
    let parent_span_id := sp.parent_id.getD target_parent_span_id
    match merge_get_span_from_id mgr target_request_id parent_span_id with
    | none =>
      Except.error (MlflowErr.invalidParameter
        ("Span with ID " ++ parent_span_id ++ " not found. Please make sure the " ++
         "spans in the trace are ordered correctly i.e. the parent span comes before " ++
         "its children."))
    | some _ =>
      let cloned := from_immutable_span sp (some parent_span_id)
        target_request_id new_trace_id
      merge_loop target_request_id target_parent_span_id new_trace_id
        (merge_register_span mgr cloned) rest

/-- An aggregate with the incoming trace's tags and request metadata
merged in: the receiving aggregate's own entries are applied over the
incoming ones, so the receiving value wins on a shared key
(`{**trace.info.tags, **parent_trace.info.tags}`). -/
def agg_merge_info (t : MergeAgg) (trace : ExtTrace) : MergeAgg :=
  { t with info := { t.info with
      tags := dictUpdate trace.tags t.info.tags,
      request_metadata :=
        dictUpdate trace.request_metadata t.info.request_metadata } }

/-- Splice `_merge_trace`: skips with a warning when the receiving trace
is absent; reads the internal trace identifier off the target span
(python dict subscription, a key error when absent); clones the spans;
then merges tags and request metadata with the receiving trace's
entries winning on conflict. -/
def merge_trace (mgr : MergeManager) (trace : ExtTrace)
    (target_request_id target_parent_span_id : String) :
    Except MlflowErr MergeManager :=
  match dictGet mgr target_request_id with
  | none => Except.ok mgr
  | some parent =>
    match dictGet parent.span_dict target_parent_span_id with
    | none => Except.error (MlflowErr.keyError target_parent_span_id)
    | some target_span =>
      let new_trace_id := target_span.trace_id
      match merge_loop target_request_id target_parent_span_id new_trace_id
          mgr trace.spans with
      | Except.error e => Except.error e
      | Except.ok mgr' =>
        match dictGet mgr' target_request_id with
        | none => Except.error (MlflowErr.keyError target_request_id)
        | some p =>
          Except.ok (dictSet mgr' target_request_id (agg_merge_info p trace))

/-- Entry `add_trace` with an explicit target span: a trace that is not
in a terminal status is rejected with an invalid-parameter usage error,
otherwise the trace is merged under the target span. -/
def add_trace_under (mgr : MergeManager) (trace : ExtTrace)
    (target_request_id target_parent_span_id : String) :
    Except MlflowErr MergeManager :=
  if trace.status ∈ end_statuses then
    merge_trace mgr trace target_request_id target_parent_span_id
  else
    Except.error (MlflowErr.invalidParameter
      ("The trace must be ended before adding it to another trace."))

/-! Concrete fixtures used to evaluate the definitions on closed
inputs. -/

/-- Fixture: the target span under which external traces are merged. -/
def c5TargetSpan : MergeSpan :=
  { span_id := "s0", trace_id := "T", request_id := "rid" }

/-- Fixture: the receiving aggregate holding only the target span. -/
def c5Agg : MergeAgg :=
  { info := { tags := [("k", "pv")] }, span_dict := [("s0", c5TargetSpan)] }

/-- Fixture: a merge registry with the receiving trace registered. -/
def c5Mgr : MergeManager := [("rid", c5Agg)]

/-- Fixture: the parentless root span of the external trace. -/
def c5SpanA : MergeSpan :=
  { span_id := "a", trace_id := "ext", request_id := "extr" }

/-- Fixture: a child span of the external trace pointing at the root. -/
def c5SpanB : MergeSpan :=
  { span_id := "b", parent_id := some "a", trace_id := "ext", request_id := "extr" }

/-- Fixture: a terminal external trace with spans ordered
parent-before-child. -/
def c5GoodTrace : ExtTrace :=
  { status := TraceStatusCode.OK, tags := [("k", "cv"), ("k2", "c2")], spans := [c5SpanA, c5SpanB] }

/-- Fixture: a terminal external trace with the child span listed before
its parent. -/
def c5BadTrace : ExtTrace :=
  { status := TraceStatusCode.OK, spans := [c5SpanB, c5SpanA] }

/-- Fixture: the registry produced by merging the well-ordered external
trace under the target span. -/
def c5Merged : MergeManager :=
  (add_trace_under c5Mgr c5GoodTrace "rid" "s0").toOption.getD []

/-- Fixture: a root OpenTelemetry span with inputs and outputs set. -/
def c2ExampleOtel : OtelSpanData :=
  { name := "r", trace_id := 5, span_id := 1, attributes := [(KEY_INPUTS, Value.int 7), (KEY_OUTPUTS, Value.int 9)] }

/-- Fixture: the wrapper stored for the root span. -/
def c2ExampleWrapper : MlflowSpanWrapper :=
  { request_id := "req1", span := c2ExampleOtel }

/-- Fixture: a registered aggregate holding only the root span. -/
def c2ExampleTrace : TMTrace :=
  { info := { request_id := "req1" }, span_dict := [(SpanKey.formatted "0x1", c2ExampleWrapper)] }

/-- Fixture: a trace manager state with one registered trace. -/
def c2ExampleState : TMState :=
  { traces := [(5, c2ExampleTrace)], request_id_to_trace_id := [("req1", 5)] }

/-- Fixture: a trace manager state with one registered, empty trace. -/
def c10ExampleState : TMState :=
  { traces := [(3, { info := { request_id := "r1" } })], request_id_to_trace_id := [("r1", 3)] }

/-- Fixture: an OpenTelemetry span belonging to the registered trace. -/
def c10ExampleOtel : OtelSpanData :=
  { name := "sp", trace_id := 3, span_id := 4 }

/-! Helper lemmas on the python dict model. -/

theorem dictGet_dictSet_self {K V : Type} [DecidableEq K]
    (m : List (K × V)) (k : K) (v : V) : dictGet (dictSet m k v) k = some v := by
  induction m with
  | nil => simp [dictSet, dictGet]
  | cons p rest ih =>
    by_cases h : p.1 = k
    · simp [dictSet, dictGet, h]
    · simpa [dictSet, dictGet, h] using ih

theorem dictGet_dictSet_ne {K V : Type} [DecidableEq K]
    (m : List (K × V)) (k k' : K) (v : V) (h : k' ≠ k) :
    dictGet (dictSet m k v) k' = dictGet m k' := by
  have h' : k ≠ k' := fun hh => h hh.symm
  induction m with
  | nil => simp [dictSet, dictGet, h']
  | cons p rest ih =>
    by_cases hp : p.1 = k
    · subst hp
      have hpk : p.1 ≠ k' := h'
      simp [dictSet, dictGet, hpk]
    · by_cases hp' : p.1 = k'
      · simp [dictSet, dictGet, hp, hp', h]
      · simpa [dictSet, dictGet, hp, hp'] using ih

theorem dictGet_dictPop_self {K V : Type} [DecidableEq K]
    (m : List (K × V)) (k : K) : dictGet (dictPop m k) k = none := by
  induction m with
  | nil => simp [dictPop, dictGet]
  | cons p rest ih =>
    by_cases h : p.1 = k
    · simpa [dictPop, h] using ih
    · simpa [dictPop, dictGet, h] using ih

theorem dictSet_dictSet_self {K V : Type} [DecidableEq K]
    (m : List (K × V)) (k : K) (v : V) :
    dictSet (dictSet m k v) k v = dictSet m k v := by
  induction m with
  | nil => simp [dictSet]
  | cons p rest ih =>
    by_cases h : p.1 = k
    · simp [dictSet, h]
    · simpa [dictSet, h] using ih

theorem dictGet_eq_none_of_not_mem {K V : Type} [DecidableEq K]
    (m : List (K × V)) (k : K) (h : k ∉ m.map Prod.fst) :
    dictGet m k = none := by
  induction m with
  | nil => simp [dictGet]
  | cons p rest ih =>
    simp only [List.map_cons, List.mem_cons] at h
    push_neg at h
    have hpk : p.1 ≠ k := fun hh => h.1 hh.symm
    simpa [dictGet, hpk] using ih h.2

theorem dictGet_dictUpdate {K V : Type} [DecidableEq K]
    (base override : List (K × V)) (k : K)
    (hnodup : (override.map Prod.fst).Nodup) :
    dictGet (dictUpdate base override) k =
      orElseGet (dictGet override k) (dictGet base k) := by
  induction override generalizing base with
  | nil => simp [dictUpdate, dictGet, orElseGet]
  | cons p rest ih =>
    simp only [List.map_cons, List.nodup_cons] at hnodup
    have hupd : dictUpdate base (p :: rest) =
        dictUpdate (dictSet base p.1 p.2) rest := rfl
    rw [hupd, ih _ hnodup.2]
    by_cases h : p.1 = k
    · subst h
      have hrest : dictGet rest p.1 = none :=
        dictGet_eq_none_of_not_mem rest p.1 hnodup.1
      simp [dictGet, hrest, orElseGet, dictGet_dictSet_self]
    · simp [dictGet, h, orElseGet,
        dictGet_dictSet_ne _ _ _ _ (fun hh => h hh.symm)]

/-! Claim theorems. -/

/-- C7: for every live span, calling `end()` when the span's status is
not ERROR sets the status to OK before the span is finalized; if the
status is ERROR at end time it remains ERROR. -/
theorem C7_span_end_status_default (d : OtelSpanData) :
    Span.endSpan { kind := OtelSpanKind.live, otel := d } =
      Except.ok { kind := OtelSpanKind.live, otel := { d with
        status := if d.status = StatusCode.ERROR then StatusCode.ERROR
                  else StatusCode.OK,
        ended := true } } := by
  by_cases h : d.status = StatusCode.ERROR <;>
    simp [Span.endSpan, activeSpanOnly, h]

/-- C3 counterexample: the claim states that mutators on an
immutable/readable span never raise, but `set_inputs` on a span wrapping
a `ReadableSpan` raises an `MlflowException` through the
`active_span_only` guard. -/
theorem C3_counterexample :
    Span.set_inputs
        { kind := OtelSpanKind.readable,
          otel := { name := "loaded", trace_id := 1, span_id := 2 } }
        (Value.int 1) =
      Except.error (nonActiveSpanError "set_inputs") := rfl

/-- C3 amended: every mutator (`set_inputs`, `set_outputs`,
`set_attribute`, `set_attributes`, `set_status`, `add_event`) invoked on
an immutable/readable span raises an `MlflowException` stating the call
is not allowed on non-active spans, while on a no-op span every mutator
is a no-op that never raises. -/
theorem C3_mutators_non_live (d : OtelSpanData) (v : Value) (key : String)
    (attrs : List (String × Value)) (st : StatusCode) (ev : SpanEventRec)
    (nsp : NoOpSpanRec) :
    Span.set_inputs { kind := OtelSpanKind.readable, otel := d } v =
        Except.error (nonActiveSpanError "set_inputs") ∧
    Span.set_outputs { kind := OtelSpanKind.readable, otel := d } v =
        Except.error (nonActiveSpanError "set_outputs") ∧
    Span.set_attribute { kind := OtelSpanKind.readable, otel := d } key v =
        Except.error (nonActiveSpanError "set_attribute") ∧
    Span.set_attributes { kind := OtelSpanKind.readable, otel := d } attrs =
        Except.error (nonActiveSpanError "set_attributes") ∧
    Span.set_status { kind := OtelSpanKind.readable, otel := d } st =
        Except.error (nonActiveSpanError "set_status") ∧
    Span.add_event { kind := OtelSpanKind.readable, otel := d } ev =
        Except.error (nonActiveSpanError "add_event") ∧
    NoOpSpanRec.set_inputs nsp v = Except.ok nsp ∧
    NoOpSpanRec.set_outputs nsp v = Except.ok nsp ∧
    NoOpSpanRec.set_attribute nsp key v = Except.ok nsp ∧
    NoOpSpanRec.set_attributes nsp attrs = Except.ok nsp ∧
    NoOpSpanRec.set_status nsp st = Except.ok nsp ∧
    NoOpSpanRec.add_event nsp ev = Except.ok nsp := by
  refine ⟨?_, ?_, ?_, ?_, ?_, ?_, rfl, rfl, rfl, rfl, rfl, rfl⟩ <;>
    simp [Span.set_inputs, Span.set_outputs, Span.set_attribute,
      Span.set_attributes, Span.set_status, Span.add_event, activeSpanOnly]

/-- C1: for every function wrapped by the trace decorator (and every
body run under the `start_span` context manager) and every fault
pattern of the tracing-internal operations (span creation, registration
or ending raising), the wrapped call returns exactly the value the user
function returns or raises exactly the exception it raises; the body's
outcome passes through `start_span` unchanged; and on span
creation/registration failure the caller receives the no-op span. -/
theorem C1_fail_open {α β ε : Type} (faults : TracingFaults) (fnName : String)
    (f : α → Except ε β) (encode : β → Value) (capturedInputs : Value) (x : α) :
    (wrap_function faults fnName f encode capturedInputs x).1 = f x ∧
    (∀ (γ : Type) (body : FluentSpan → Except ε γ × FluentSpan),
      (start_span_run faults fnName body).1 =
        (body (if faults.createRaises || faults.registerRaises
               then FluentSpan.noop else initFluentSpan fnName)).1) ∧
    ((faults.createRaises || faults.registerRaises) = true →
      ∀ (γ : Type) (body : FluentSpan → Except ε γ × FluentSpan),
        start_span_run faults fnName body = body FluentSpan.noop) := by
  refine ⟨?_, ?_, ?_⟩
  · cases hcr : faults.createRaises <;> cases hrr : faults.registerRaises <;>
      cases hf : f x <;>
        simp [wrap_function, start_span_run, hcr, hrr, hf]
  · intro γ body
    cases hcr : faults.createRaises <;> cases hrr : faults.registerRaises <;>
      simp [start_span_run, hcr, hrr]
  · intro h γ body
    simp [start_span_run, h]

/-- C1 witness: a concrete wrapped function under a creation fault still
returns its own value, and the `start_span` body receives the no-op
span. -/
theorem C1_fail_open_witness :
    (wrap_function { createRaises := true } "f"
        (fun n : Nat => (Except.ok (n + 1) : Except Unit Nat))
        (fun n => Value.int n) Value.null 2).1 = Except.ok 3 ∧
    start_span_run { createRaises := true } "f"
        (fun s => ((Except.ok 0 : Except Unit Nat), s)) =
      ((Except.ok 0 : Except Unit Nat), FluentSpan.noop) := by
  refine ⟨?_, ?_⟩
  · exact (C1_fail_open { createRaises := true } "f"
      (fun n : Nat => (Except.ok (n + 1) : Except Unit Nat))
      (fun n => Value.int n) Value.null 2).1
  · exact (C1_fail_open { createRaises := true } "f"
      (fun _ : Nat => (Except.ok 0 : Except Unit Nat)) (fun _ => Value.null)
      Value.null 0).2.2 rfl Nat (fun s => ((Except.ok 0 : Except Unit Nat), s))

/-- C4: an end-trace task dequeued before its request id future is
resolved is re-enqueued with exponential backoff (sleeping 2, 4, ...
seconds), at most 5 times; the task leaves the queue within 6 dequeues,
completing normally as soon as the future is resolved at one of those
dequeues, and otherwise being dropped (with a logged warning) after the
5th failed retry. -/
theorem C4_end_trace_retry_bounded (ready : Nat → Bool) :
    ∃ out : List Nat × Bool,
      processEndTask 6 ready 0 { retry := 0 } = some out ∧
      out.1.length ≤ END_TRACE_MAX_RETRY ∧
      out.1 = (List.range out.1.length).map (fun i => 2 ^ (i + 1)) ∧
      (out.2 = true ↔ ∃ i, i ≤ END_TRACE_MAX_RETRY ∧ ready i = true) ∧
      (out.2 = false → out.1.length = END_TRACE_MAX_RETRY) := by
  by_cases h0 : ready 0 = true
  · refine ⟨([], true), ?_, by decide, by decide, ?_, by decide⟩
    · simp [processEndTask, handleEndTraceTask, h0]
    · simp only [true_iff]
      exact ⟨0, by decide, h0⟩
  · by_cases h1 : ready 1 = true
    · refine ⟨([2], true), ?_, by decide, by decide, ?_, by decide⟩
      · simp [processEndTask, handleEndTraceTask, END_TRACE_MAX_RETRY, h0, h1]
      · simp only [true_iff]
        exact ⟨1, by decide, h1⟩
    · by_cases h2 : ready 2 = true
      · refine ⟨([2, 4], true), ?_, by decide, by decide, ?_, by decide⟩
        · simp [processEndTask, handleEndTraceTask, END_TRACE_MAX_RETRY,
            h0, h1, h2]
        · simp only [true_iff]
          exact ⟨2, by decide, h2⟩
      · by_cases h3 : ready 3 = true
        · refine ⟨([2, 4, 8], true), ?_, by decide, by decide, ?_, by decide⟩
          · simp [processEndTask, handleEndTraceTask, END_TRACE_MAX_RETRY,
              h0, h1, h2, h3]
          · simp only [true_iff]
            exact ⟨3, by decide, h3⟩
        · by_cases h4 : ready 4 = true
          · refine ⟨([2, 4, 8, 16], true), ?_, by decide, by decide, ?_,
              by decide⟩
            · simp [processEndTask, handleEndTraceTask, END_TRACE_MAX_RETRY,
                h0, h1, h2, h3, h4]
            · simp only [true_iff]
              exact ⟨4, by decide, h4⟩
          · by_cases h5 : ready 5 = true
            · refine ⟨([2, 4, 8, 16, 32], true), ?_, by decide, by decide, ?_,
                by decide⟩
              · simp [processEndTask, handleEndTraceTask, END_TRACE_MAX_RETRY,
                  h0, h1, h2, h3, h4, h5]
              · simp only [true_iff]
                exact ⟨5, by decide, h5⟩
            · refine ⟨([2, 4, 8, 16, 32], false), ?_, by decide, by decide,
                ?_, by decide⟩
              · simp [processEndTask, handleEndTraceTask, END_TRACE_MAX_RETRY,
                  h0, h1, h2, h3, h4, h5]
              · refine iff_of_false (by decide) ?_
                rintro ⟨i, hi, hri⟩
                simp only [END_TRACE_MAX_RETRY] at hi
                interval_cases i <;> simp_all

theorem dictSet_length_le {K V : Type} [DecidableEq K]
    (m : List (K × V)) (k : K) (v : V) :
    (dictSet m k v).length ≤ m.length + 1 := by
  induction m with
  | nil => simp [dictSet]
  | cons p rest ih =>
    by_cases h : p.1 = k
    · simp [dictSet, h]
    · simpa [dictSet, h] using Nat.succ_le_succ ih

theorem toMlflowTrace_fold_no_root (l : List (SpanKey × MlflowSpanWrapper))
    (td : TraceDataRec) (h : ∀ p ∈ l, p.2.parent_span_id ≠ none) :
    (l.foldl toMlflowTraceStep td).request = td.request ∧
    (l.foldl toMlflowTraceStep td).response = td.response := by
  induction l generalizing td with
  | nil => exact ⟨rfl, rfl⟩
  | cons p rest ih =>
    have hp : p.2.parent_span_id ≠ none := h p (List.mem_cons_self _ _)
    have hstep : toMlflowTraceStep td p =
        { td with spans := td.spans ++ [p.2] } := by
      simp [toMlflowTraceStep, hp]
    have := ih { td with spans := td.spans ++ [p.2] }
      (fun q hq => h q (List.mem_cons_of_mem _ hq))
    simpa [List.foldl_cons, hstep] using this

theorem toMlflowTrace_fold_single_root (l : List (SpanKey × MlflowSpanWrapper))
    (td : TraceDataRec) (k : SpanKey) (root : MlflowSpanWrapper)
    (h : l.filter (fun p => decide (p.2.parent_span_id = none)) = [(k, root)]) :
    (l.foldl toMlflowTraceStep td).request = root.inputs ∧
    (l.foldl toMlflowTraceStep td).response = root.outputs := by
  induction l generalizing td with
  | nil => simp at h
  | cons p rest ih =>
    by_cases hp : p.2.parent_span_id = none
    · rw [List.filter_cons_of_pos (by simpa using hp)] at h
      have hpk : p = (k, root) := (List.cons_eq_cons.mp h).1
      have hrest : rest.filter (fun p => decide (p.2.parent_span_id = none)) = [] :=
        (List.cons_eq_cons.mp h).2
      have hnone : ∀ q ∈ rest, q.2.parent_span_id ≠ none := by
        intro q hq
        have := List.filter_eq_nil_iff.mp hrest q hq
        simpa using this
      have hstep : toMlflowTraceStep td p =
          { spans := td.spans ++ [p.2], request := p.2.inputs,
            response := p.2.outputs } := by
        simp [toMlflowTraceStep, hp]
      have hfold := toMlflowTrace_fold_no_root rest
        { spans := td.spans ++ [p.2], request := p.2.inputs,
          response := p.2.outputs } hnone
      subst hpk
      simpa [List.foldl_cons, hstep] using hfold
    · rw [List.filter_cons_of_neg (by simpa using hp)] at h
      have hstep : toMlflowTraceStep td p =
          { td with spans := td.spans ++ [p.2] } := by
        simp [toMlflowTraceStep, hp]
      have := ih { td with spans := td.spans ++ [p.2] } h
      simpa [List.foldl_cons, hstep] using this

/-- C8: on the first span of a trace (no trace yet registered for its
trace id), `on_start` registers the trace with the backend (blocking
for the round-trip latency) and then resets the span's recorded start
time to the current time after the backend call returns, so the
reported duration of the first span excludes the backend start-trace
round-trip latency. -/
theorem C8_first_span_duration_exclusion (w : ProcessorWorld) (mgr : TMState)
    (span : OtelSpanData)
    (hfirst : mgr.get_request_id_from_trace_id span.trace_id = none) :
    (on_start w mgr span).2.1.now = w.now + w.backendLatency ∧
    (on_start w mgr span).1.start_time = some (w.now + w.backendLatency) ∧
    (on_start w mgr span).2.2.get_request_id_from_trace_id span.trace_id =
      some w.backendRequestId ∧
    (∀ endTime : Nat,
      endTime - ((on_start w mgr span).1.start_time.getD 0) =
        endTime - w.now - w.backendLatency) := by
  have hd : dictGet mgr.traces span.trace_id = none := by
    simpa [TMState.get_request_id_from_trace_id] using hfirst
  refine ⟨?_, ?_, ?_, ?_⟩ <;>
    simp [on_start, hd, start_tracked_trace, TMState.add_trace,
      TMState.get_request_id_from_trace_id, dictGet_dictSet_self, Nat.sub_sub]

/-- C8 witness: with a backend latency of 50 starting at time 100, the
first span's recorded start time becomes 150, the time after the
backend call returned. -/
theorem C8_first_span_duration_exclusion_witness :
    (on_start { now := 100, backendLatency := 50, backendRequestId := "tr-1" }
        {} { name := "root", trace_id := 7, span_id := 1 }).1.start_time =
      some 150 ∧
    (on_start { now := 100, backendLatency := 50, backendRequestId := "tr-1" }
        {} { name := "root", trace_id := 7, span_id := 1 }).2.1.now = 150 := by
  have h := C8_first_span_duration_exclusion
    { now := 100, backendLatency := 50, backendRequestId := "tr-1" }
    {} { name := "root", trace_id := 7, span_id := 1 } rfl
  exact ⟨h.2.1, h.1⟩

/-- C2: for a registered trace whose aggregate has exactly one span with
no parent, the first `pop_trace` removes the aggregate and returns it
assembled as a trace whose request and response come from that root
span's inputs and outputs; a second `pop_trace` with the same request
id returns none, and `pop_trace` on a never-registered or
already-evicted id returns none and leaves the state unchanged (the
operation is total: a missing trace is a normal condition, not an
exception). -/
theorem C2_pop_once (s : TMState) (r : String) (tid : Nat) (tr : TMTrace)
    (k : SpanKey) (root : MlflowSpanWrapper)
    (hmap : dictGet s.request_id_to_trace_id r = some tid)
    (htr : dictGet s.traces tid = some tr)
    (hroot : tr.span_dict.filter
      (fun p => decide (p.2.parent_span_id = none)) = [(k, root)]) :
    (s.pop_trace r).1 = some tr.to_mlflow_trace ∧
    tr.to_mlflow_trace.data.request = root.inputs ∧
    tr.to_mlflow_trace.data.response = root.outputs ∧
    ((s.pop_trace r).2.pop_trace r).1 = none ∧
    (∀ r' : String, dictGet s.request_id_to_trace_id r' = none →
      s.pop_trace r' = (none, s)) ∧
    (∀ (r'' : String) (tid'' : Nat),
      dictGet s.request_id_to_trace_id r'' = some tid'' →
      dictGet s.traces tid'' = none → s.pop_trace r'' = (none, s)) := by
  obtain ⟨hreq, hresp⟩ :=
    toMlflowTrace_fold_single_root tr.span_dict {} k root hroot
  refine ⟨?_, ?_, ?_, ?_, ?_, ?_⟩
  · simp [TMState.pop_trace, hmap, htr]
  · simpa [TMTrace.to_mlflow_trace] using hreq
  · simpa [TMTrace.to_mlflow_trace] using hresp
  · simp [TMState.pop_trace, hmap, htr, dictGet_dictPop_self]
  · intro r' h'
    simp [TMState.pop_trace, h']
  · intro r'' tid'' h1 h2
    simp [TMState.pop_trace, h1, h2]

/-- C2 witness: a concrete one-trace state whose single span is the
root; the first pop returns the assembled trace with the root's inputs
as request and outputs as response, and the second pop returns none. -/
theorem C2_pop_once_witness :
    (c2ExampleState.pop_trace "req1").1 = some c2ExampleTrace.to_mlflow_trace ∧
    c2ExampleTrace.to_mlflow_trace.data.request = some (Value.int 7) ∧
    c2ExampleTrace.to_mlflow_trace.data.response = some (Value.int 9) ∧
    ((c2ExampleState.pop_trace "req1").2.pop_trace "req1").1 = none := by
  have h := C2_pop_once c2ExampleState "req1" 5 c2ExampleTrace
    (SpanKey.formatted "0x1") c2ExampleWrapper rfl rfl rfl
  refine ⟨h.1, ?_, ?_, h.2.2.2.1⟩
  · rw [h.2.1]; rfl
  · rw [h.2.2.1]; rfl

/-- C10: `get_or_create_mlflow_span` is total and idempotent: for a span
whose trace id has no registered trace it returns the no-op wrapper and
leaves the registry unchanged; for a registered trace, applying the
operation a second time to the resulting state returns exactly the
first call's wrapper and state, and the trace's span dict gains at most
one entry. -/
theorem C10_get_or_create_span (s : TMState) (otel : OtelSpanData)
    (st : Option String) :
    (dictGet s.traces otel.trace_id = none →
      s.get_or_create_mlflow_span otel st = (WrapperResult.noop, s)) ∧
    (∀ tr : TMTrace, dictGet s.traces otel.trace_id = some tr →
      (s.get_or_create_mlflow_span otel st).2.get_or_create_mlflow_span otel st =
        s.get_or_create_mlflow_span otel st ∧
      (dictGet (s.get_or_create_mlflow_span otel st).2.traces
        otel.trace_id).isSome = true ∧
      (∀ tr1 : TMTrace,
        dictGet (s.get_or_create_mlflow_span otel st).2.traces otel.trace_id =
          some tr1 →
        tr1.span_dict.length ≤ tr.span_dict.length + 1)) := by
  constructor
  · intro h
    simp [TMState.get_or_create_mlflow_span, h]
  · intro tr htr
    cases hl : dictGet tr.span_dict (SpanKey.otelId otel.span_id) with
    | some w =>
      have hstate : (s.get_or_create_mlflow_span otel st).2 = s := by
        simp [TMState.get_or_create_mlflow_span, htr, hl]
      refine ⟨?_, ?_, ?_⟩
      · simp [TMState.get_or_create_mlflow_span, htr, hl]
      · rw [hstate, htr]; rfl
      · intro tr1 h1
        rw [hstate, htr] at h1
        cases h1
        exact Nat.le_succ _
    | none =>
      have hne : SpanKey.otelId otel.span_id ≠
          SpanKey.formatted (formatSpanId otel.span_id) := by
        intro hcontra
        exact SpanKey.noConfusion hcontra
      refine ⟨?_, ?_, ?_⟩
      · simp only [TMState.get_or_create_mlflow_span, htr, hl,
          MlflowSpanWrapper.span_id, dictGet_dictSet_self,
          dictGet_dictSet_ne _ _ _ _ hne, dictSet_dictSet_self]
      · simp only [TMState.get_or_create_mlflow_span, htr, hl,
          MlflowSpanWrapper.span_id, dictGet_dictSet_self]
        rfl
      · intro tr1 h1
        simp only [TMState.get_or_create_mlflow_span, htr, hl,
          MlflowSpanWrapper.span_id, dictGet_dictSet_self] at h1
        cases h1
        exact dictSet_length_le _ _ _

/-- C10 witness: on an empty registry the operation returns the no-op
wrapper and changes nothing; on a registered trace the second call
returns exactly the first call's wrapper and state. -/
theorem C10_get_or_create_span_witness :
    TMState.get_or_create_mlflow_span {} c10ExampleOtel none =
      (WrapperResult.noop, {}) ∧
    (c10ExampleState.get_or_create_mlflow_span
        c10ExampleOtel none).2.get_or_create_mlflow_span c10ExampleOtel none =
      c10ExampleState.get_or_create_mlflow_span c10ExampleOtel none := by
  constructor
  · exact (C10_get_or_create_span {} c10ExampleOtel none).1 rfl
  · exact ((C10_get_or_create_span c10ExampleState c10ExampleOtel none).2
      { info := { request_id := "r1" } } rfl).1

theorem record_chunk_event_live (d : OtelSpanData) (c : Value) (i : Nat) :
    record_chunk_event { kind := OtelSpanKind.live, otel := d } c i =
      { kind := OtelSpanKind.live,
        otel := { d with events := d.events ++ [chunkEvent i c] } } := by
  simp [record_chunk_event, Span.add_event, activeSpanOnly, Except.toOption]

theorem stream_loop_live (reducer : Option (List Value → Value))
    (err : Option String) (chunks : List Value) :
    ∀ (i : Nat) (acc : List Value) (d : OtelSpanData),
      stream_loop reducer err chunks i acc
          { kind := OtelSpanKind.live, otel := d } =
        (chunks, err,
          match err with
          | some e => end_stream_span_error
              { kind := OtelSpanKind.live, otel := { d with events := d.events ++ chunk_events_from i chunks } } e
          | none => end_stream_span_ok reducer
              { kind := OtelSpanKind.live, otel := { d with events := d.events ++ chunk_events_from i chunks } }
              (acc ++ chunks)) := by
  induction chunks with
  | nil =>
    intro i acc d
    cases err <;> simp [stream_loop, chunk_events_from]
  | cons c rest ih =>
    intro i acc d
    cases err <;>
      simp [stream_loop, record_chunk_event_live, ih, chunk_events_from,
        List.append_assoc]

/-- C9: for every traced (synchronous) generator function, the wrapper
delivers every yielded chunk unchanged to the consumer and records each
as a distinct chunk event on the span; on exhaustion the span ends OK
with outputs equal to the list of all yielded chunks, or to the
output reducer applied to that list when one is supplied; if the
generator body raises mid-stream, the span ends with ERROR status and
the exception recorded as an event, and the same exception propagates
to the caller. -/
theorem C9_generator_stream (reducer : Option (List Value → Value))
    (name : String) (gen : GenBehavior) :
    (wrap_generator_run reducer name gen).1 = gen.chunks ∧
    (wrap_generator_run reducer name gen).2.1 = gen.err ∧
    (gen.err = none →
      (wrap_generator_run reducer name gen).2.2.otel.events =
        chunk_events_from 0 gen.chunks ∧
      (wrap_generator_run reducer name gen).2.2.outputs =
        some (match reducer with
              | some r => r gen.chunks
              | none => Value.list gen.chunks) ∧
      (wrap_generator_run reducer name gen).2.2.otel.status = StatusCode.OK ∧
      (wrap_generator_run reducer name gen).2.2.otel.ended = true) ∧
    (∀ e : String, gen.err = some e →
      (wrap_generator_run reducer name gen).2.2.otel.events =
        chunk_events_from 0 gen.chunks ++ [exceptionEvent e] ∧
      (wrap_generator_run reducer name gen).2.2.otel.status =
        StatusCode.ERROR ∧
      (wrap_generator_run reducer name gen).2.2.otel.ended = true) := by
  have hloop := stream_loop_live reducer gen.err gen.chunks 0 []
    (initStreamSpan name).otel
  have hrun : wrap_generator_run reducer name gen =
      (gen.chunks, gen.err,
        match gen.err with
        | some e => end_stream_span_error
            { kind := OtelSpanKind.live, otel := { (initStreamSpan name).otel with events := (initStreamSpan name).otel.events ++ chunk_events_from 0 gen.chunks } } e
        | none => end_stream_span_ok reducer
            { kind := OtelSpanKind.live, otel := { (initStreamSpan name).otel with events := (initStreamSpan name).otel.events ++ chunk_events_from 0 gen.chunks } }
            ([] ++ gen.chunks)) := by
    rw [wrap_generator_run]
    exact hloop
  refine ⟨?_, ?_, ?_, ?_⟩
  · rw [hrun]
  · rw [hrun]
  · intro hnone
    rw [hrun, hnone]
    cases reducer <;>
      simp [end_stream_span_ok, end_client_span_or_trace, Span.set_outputs,
        Span.set_attribute, Span.set_status, Span.endSpan, Span.outputs,
        activeSpanOnly, Except.toOption, initStreamSpan, dictSet, dictGet]
  · intro e herr
    rw [hrun, herr]
    simp [end_stream_span_error, end_client_span_or_trace, Span.add_event,
      Span.set_status, Span.endSpan, activeSpanOnly, Except.toOption,
      initStreamSpan]

/-- C9 witness: the spec's example scenario, a generator yielding
0, 1, 2 with a sum reducer: the consumer receives the three chunks, the
span records three chunk events and ends OK with outputs 3. -/
theorem C9_generator_stream_witness :
    (wrap_generator_run
        (some (fun xs => Value.int (xs.foldl
          (fun a v => match v with | Value.int n => a + n | _ => a) 0)))
        "g" { chunks := [Value.int 0, Value.int 1, Value.int 2] }).1 =
      [Value.int 0, Value.int 1, Value.int 2] ∧
    (wrap_generator_run
        (some (fun xs => Value.int (xs.foldl
          (fun a v => match v with | Value.int n => a + n | _ => a) 0)))
        "g" { chunks := [Value.int 0, Value.int 1, Value.int 2] }).2.2.outputs =
      some (Value.int 3) ∧
    (wrap_generator_run
        (some (fun xs => Value.int (xs.foldl
          (fun a v => match v with | Value.int n => a + n | _ => a) 0)))
        "g" { chunks := [Value.int 0, Value.int 1, Value.int 2] }).2.2.otel.events.length =
      3 := by
  have h := C9_generator_stream
    (some (fun xs => Value.int (xs.foldl
      (fun a v => match v with | Value.int n => a + n | _ => a) 0)))
    "g" { chunks := [Value.int 0, Value.int 1, Value.int 2] }
  obtain ⟨hd, -, hok, -⟩ := h
  obtain ⟨hev, hout, -, -⟩ := hok rfl
  refine ⟨hd, ?_, ?_⟩
  · rw [hout]; rfl
  · rw [hev]; rfl

theorem merge_loop_cons_found (rid tp tid : String) (mgr : MergeManager)
    (sp : MergeSpan) (rest : List MergeSpan) (pw : MergeSpan)
    (hpar : merge_get_span_from_id mgr rid (sp.parent_id.getD tp) = some pw) :
    merge_loop rid tp tid mgr (sp :: rest) =
      merge_loop rid tp tid
        (merge_register_span mgr
          (from_immutable_span sp (some (sp.parent_id.getD tp)) rid tid))
        rest := by
  rw [merge_loop]
  simp [hpar]

theorem merge_register_span_found (mgr : MergeManager) (sp : MergeSpan)
    (t : MergeAgg) (h : dictGet mgr sp.request_id = some t) :
    merge_register_span mgr sp = dictSet mgr sp.request_id (agg_with_span t sp) := by
  simp [merge_register_span, h]

theorem merge_loop_ok_spec (rid tp tid : String) :
    ∀ (spans : List MergeSpan) (mgr mgr' : MergeManager) (t : MergeAgg),
      dictGet mgr rid = some t →
      merge_loop rid tp tid mgr spans = Except.ok mgr' →
      (spans.map (fun sp => sp.span_id)).Nodup →
      ∃ t' : MergeAgg, dictGet mgr' rid = some t' ∧ t'.info = t.info ∧
        (∀ k : String, k ∉ spans.map (fun sp => sp.span_id) →
          dictGet t'.span_dict k = dictGet t.span_dict k) ∧
        ∀ sp ∈ spans,
          dictGet t'.span_dict sp.span_id =
            some (from_immutable_span sp (some (sp.parent_id.getD tp)) rid tid) := by
  intro spans
  induction spans with
  | nil =>
    intro mgr mgr' t hmgr hok _
    have hmm : mgr = mgr' := by simpa [merge_loop] using hok
    subst hmm
    exact ⟨t, hmgr, rfl, fun k _ => rfl, by simp⟩
  | cons sp rest ih =>
    intro mgr mgr' t hmgr hok hnodup
    cases hpar : merge_get_span_from_id mgr rid (sp.parent_id.getD tp) with
    | none =>
      rw [merge_loop] at hok
      simp [hpar] at hok
    | some pw =>
      rw [merge_loop_cons_found rid tp tid mgr sp rest pw hpar] at hok
      have hreq : (from_immutable_span sp (some (sp.parent_id.getD tp)) rid
          tid).request_id = rid := rfl
      have hreg := merge_register_span_found mgr
        (from_immutable_span sp (some (sp.parent_id.getD tp)) rid tid) t
        (by rw [hreq]; exact hmgr)
      have hmgr1 : dictGet (merge_register_span mgr
          (from_immutable_span sp (some (sp.parent_id.getD tp)) rid tid)) rid =
          some (agg_with_span t
            (from_immutable_span sp (some (sp.parent_id.getD tp)) rid tid)) := by
        rw [hreg, hreq]
        exact dictGet_dictSet_self _ _ _
      rw [List.map_cons] at hnodup
      obtain ⟨hnd1, hnd2⟩ := List.nodup_cons.mp hnodup
      obtain ⟨t', ht', hinfo, hframe, hclones⟩ :=
        ih (merge_register_span mgr
          (from_immutable_span sp (some (sp.parent_id.getD tp)) rid tid))
          mgr' _ hmgr1 hok hnd2
      refine ⟨t', ht', hinfo, ?_, ?_⟩
      · intro k hk
        rw [List.map_cons] at hk
        have hk1 : k ≠ sp.span_id := fun hkk => hk (by simp [hkk])
        have hk2 : k ∉ rest.map (fun sp => sp.span_id) :=
          fun hkk => hk (List.mem_cons_of_mem _ hkk)
        rw [hframe k hk2]
        exact dictGet_dictSet_ne _ _ _ _ hk1
      · intro sq hsq
        rcases List.mem_cons.mp hsq with hq | hq
        · subst hq
          rw [hframe _ hnd1]
          exact dictGet_dictSet_self _ _ _
        · exact hclones sq hq

theorem merge_loop_preserves_info (rid tp tid : String) :
    ∀ (spans : List MergeSpan) (mgr mgr' : MergeManager) (t : MergeAgg),
      dictGet mgr rid = some t →
      merge_loop rid tp tid mgr spans = Except.ok mgr' →
      ∃ t' : MergeAgg, dictGet mgr' rid = some t' ∧ t'.info = t.info := by
  intro spans
  induction spans with
  | nil =>
    intro mgr mgr' t hmgr hok
    have hmm : mgr = mgr' := by simpa [merge_loop] using hok
    subst hmm
    exact ⟨t, hmgr, rfl⟩
  | cons sp rest ih =>
    intro mgr mgr' t hmgr hok
    cases hpar : merge_get_span_from_id mgr rid (sp.parent_id.getD tp) with
    | none =>
      rw [merge_loop] at hok
      simp [hpar] at hok
    | some pw =>
      rw [merge_loop_cons_found rid tp tid mgr sp rest pw hpar] at hok
      have hreq : (from_immutable_span sp (some (sp.parent_id.getD tp)) rid
          tid).request_id = rid := rfl
      have hreg := merge_register_span_found mgr
        (from_immutable_span sp (some (sp.parent_id.getD tp)) rid tid) t
        (by rw [hreq]; exact hmgr)
      have hmgr1 : dictGet (merge_register_span mgr
          (from_immutable_span sp (some (sp.parent_id.getD tp)) rid tid)) rid =
          some (agg_with_span t
            (from_immutable_span sp (some (sp.parent_id.getD tp)) rid tid)) := by
        rw [hreg, hreq]
        exact dictGet_dictSet_self _ _ _
      obtain ⟨t', ht', hinfo⟩ := ih _ mgr' _ hmgr1 hok
      exact ⟨t', ht', hinfo⟩

/-- C5: merging an external trace whose span list places a child before
its parent raises an invalid-parameter usage error; merging a terminal
trace whose spans are ordered parent-before-child under a target span
produces, in the receiving trace, cloned spans that all carry the
target span's internal trace identifier, with the first merged span's
parent id equal to the target span's span id. -/
theorem C5_merge_ordering (mgr : MergeManager) (trace : ExtTrace)
    (rid sid : String) (agg : MergeAgg) (tsp : MergeSpan)
    (hagg : dictGet mgr rid = some agg)
    (htsp : dictGet agg.span_dict sid = some tsp)
    (hterm : trace.status ∈ end_statuses) :
    (∀ (c : MergeSpan) (rest : List MergeSpan) (p : String),
      trace.spans = c :: rest → c.parent_id = some p →
      merge_get_span_from_id mgr rid p = none →
      add_trace_under mgr trace rid sid =
        Except.error (MlflowErr.invalidParameter
          ("Span with ID " ++ p ++ " not found. Please make sure the " ++
           "spans in the trace are ordered correctly i.e. the parent span comes before " ++
           "its children."))) ∧
    (∀ mgr' : MergeManager,
      add_trace_under mgr trace rid sid = Except.ok mgr' →
      (trace.spans.map (fun sp => sp.span_id)).Nodup →
      (∀ sp ∈ trace.spans,
        merge_get_span_from_id mgr' rid sp.span_id =
          some (from_immutable_span sp (some (sp.parent_id.getD sid)) rid
            tsp.trace_id) ∧
        (from_immutable_span sp (some (sp.parent_id.getD sid)) rid
          tsp.trace_id).trace_id = tsp.trace_id) ∧
      (∀ (s0 : MergeSpan) (rest : List MergeSpan),
        trace.spans = s0 :: rest → s0.parent_id = none →
        merge_get_span_from_id mgr' rid s0.span_id =
          some (from_immutable_span s0 (some sid) rid tsp.trace_id) ∧
        (from_immutable_span s0 (some sid) rid tsp.trace_id).parent_id =
          some sid)) := by
  constructor
  · intro c rest p hspans hcp hnotfound
    simp [add_trace_under, hterm, merge_trace, hagg, htsp, hspans, merge_loop,
      hcp, hnotfound]
  · intro mgr' hok hnodup
    have hmt : merge_trace mgr trace rid sid = Except.ok mgr' := by
      simpa [add_trace_under, hterm] using hok
    simp only [merge_trace, hagg, htsp] at hmt
    cases hloop : merge_loop rid sid tsp.trace_id mgr trace.spans with
    | error e =>
      simp only [hloop] at hmt
      exact absurd hmt (by simp)
    | ok mgr1 =>
      simp only [hloop] at hmt
      obtain ⟨t', ht', hinfo, hframe, hclones⟩ :=
        merge_loop_ok_spec rid sid tsp.trace_id trace.spans mgr mgr1 agg hagg
          hloop hnodup
      simp only [ht'] at hmt
      have hm' : mgr' = dictSet mgr1 rid (agg_merge_info t' trace) :=
        (Except.ok.inj hmt).symm
      have hlook : ∀ sp ∈ trace.spans,
          merge_get_span_from_id mgr' rid sp.span_id =
            some (from_immutable_span sp (some (sp.parent_id.getD sid)) rid
              tsp.trace_id) := by
        intro sp hsp
        rw [hm', merge_get_span_from_id, dictGet_dictSet_self]
        exact hclones sp hsp
      constructor
      · intro sp hsp
        exact ⟨hlook sp hsp, rfl⟩
      · intro s0 rest hspans hparent
        have hmem : s0 ∈ trace.spans := by
          rw [hspans]
          exact List.mem_cons_self _ _
        have h0 := hlook s0 hmem
        rw [hparent] at h0
        exact ⟨h0, rfl⟩

/-- C5 witness: merging a child-before-parent trace into a concrete
registry raises the invalid-parameter error; merging the well-ordered
trace produces clones carrying the target trace identifier, the first
clone hanging off the target span. -/
theorem C5_merge_ordering_witness :
    add_trace_under c5Mgr c5BadTrace "rid" "s0" =
      Except.error (MlflowErr.invalidParameter
        ("Span with ID " ++ "a" ++ " not found. Please make sure the " ++
         "spans in the trace are ordered correctly i.e. the parent span comes before " ++
         "its children.")) ∧
    merge_get_span_from_id c5Merged "rid" "a" =
      some (from_immutable_span c5SpanA (some "s0") "rid" "T") ∧
    (from_immutable_span c5SpanA (some "s0") "rid" "T").trace_id = "T" ∧
    (from_immutable_span c5SpanA (some "s0") "rid" "T").parent_id = some "s0" := by
  have hA := (C5_merge_ordering c5Mgr c5BadTrace "rid" "s0" c5Agg c5TargetSpan
    rfl rfl (by decide)).1 c5SpanB [c5SpanA] "a" rfl rfl rfl
  have hB := (C5_merge_ordering c5Mgr c5GoodTrace "rid" "s0" c5Agg c5TargetSpan
    rfl rfl (by decide)).2 c5Merged rfl (by decide)
  have h0 := hB.2 c5SpanA [c5SpanB] rfl rfl
  exact ⟨hA, h0.1, rfl, h0.2⟩

/-- C6: when an external trace is merged into a receiving trace, for
every tag or request-metadata key present in both, the receiving
trace's value is kept and the incoming value discarded; keys present
only in the incoming trace are added. -/
theorem C6_tag_merge_precedence (mgr : MergeManager) (trace : ExtTrace)
    (rid sid : String) (agg : MergeAgg) (tsp : MergeSpan) (mgr' : MergeManager)
    (hagg : dictGet mgr rid = some agg)
    (htsp : dictGet agg.span_dict sid = some tsp)
    (hok : add_trace_under mgr trace rid sid = Except.ok mgr')
    (hnodupTags : (agg.info.tags.map Prod.fst).Nodup)
    (hnodupMeta : (agg.info.request_metadata.map Prod.fst).Nodup) :
    (dictGet mgr' rid).isSome = true ∧
    (∀ agg' : MergeAgg, dictGet mgr' rid = some agg' →
      (∀ k : String, dictGet agg'.info.tags k =
        orElseGet (dictGet agg.info.tags k) (dictGet trace.tags k)) ∧
      (∀ k : String, dictGet agg'.info.request_metadata k =
        orElseGet (dictGet agg.info.request_metadata k)
          (dictGet trace.request_metadata k))) := by
  have hterm : trace.status ∈ end_statuses := by
    by_contra hterm
    rw [add_trace_under, if_neg hterm] at hok
    exact absurd hok (by simp)
  have hmt : merge_trace mgr trace rid sid = Except.ok mgr' := by
    rw [add_trace_under, if_pos hterm] at hok
    exact hok
  simp only [merge_trace, hagg, htsp] at hmt
  cases hloop : merge_loop rid sid tsp.trace_id mgr trace.spans with
  | error e =>
    simp only [hloop] at hmt
    exact absurd hmt (by simp)
  | ok mgr1 =>
    simp only [hloop] at hmt
    obtain ⟨t', ht', hinfo⟩ :=
      merge_loop_preserves_info rid sid tsp.trace_id trace.spans mgr mgr1 agg
        hagg hloop
    simp only [ht'] at hmt
    have hm' : mgr' = dictSet mgr1 rid (agg_merge_info t' trace) :=
      (Except.ok.inj hmt).symm
    constructor
    · rw [hm', dictGet_dictSet_self]
      rfl
    · intro agg' hagg'
      rw [hm', dictGet_dictSet_self] at hagg'
      have hsub := Option.some.inj hagg'
      subst hsub
      constructor
      · intro k
        simp only [agg_merge_info]
        rw [hinfo]
        exact dictGet_dictUpdate trace.tags agg.info.tags k hnodupTags
      · intro k
        simp only [agg_merge_info]
        rw [hinfo]
        exact dictGet_dictUpdate trace.request_metadata
          agg.info.request_metadata k hnodupMeta

/-- C6 witness: merging the terminal external trace into the concrete
registry keeps the receiving trace's value for the shared tag key and
adds the incoming-only key. -/
theorem C6_tag_merge_precedence_witness :
    (dictGet c5Merged "rid").isSome = true ∧
    (∀ agg' : MergeAgg, dictGet c5Merged "rid" = some agg' →
      dictGet agg'.info.tags "k" = some "pv" ∧
      dictGet agg'.info.tags "k2" = some "c2") := by
  have h := C6_tag_merge_precedence c5Mgr c5GoodTrace "rid" "s0" c5Agg
    c5TargetSpan c5Merged rfl rfl rfl (by decide) (by decide)
  refine ⟨h.1, ?_⟩
  intro agg' hagg'
  obtain ⟨htags, -⟩ := h.2 agg' hagg'
  constructor
  · rw [htags "k"]
    rfl
  · rw [htags "k2"]
    rfl

/-- C4 witness: with a request id future that never resolves, the task
leaves the queue with the full backoff schedule rather than being
retried forever. -/
theorem C4_end_trace_retry_bounded_witness :
    ∃ out : List Nat × Bool,
      processEndTask 6 (fun _ => false) 0 { retry := 0 } = some out ∧
      out.1.length ≤ 5 := by
  obtain ⟨out, hrun, hlen, -, -, -⟩ :=
    C4_end_trace_retry_bounded (fun _ => false)
  exact ⟨out, hrun, hlen⟩

end MlflowTracing
